import Mathlib

/-!
Verification of the Rust-for-Linux C helper shim layer
(`src/rust/helpers/helpers_combined.c` and `src/unnamed/part_000`).

The repository consists of small C trampoline functions exposing kernel
inline/macro primitives as linkable symbols.  We build a shallow embedding:

* each wrapper whose body is a single forwarding call is embedded as a Lean
  function parameterised by the wrapped primitive (an arbitrary function over
  an abstract kernel-state type `S`), its body being exactly the call the
  C source performs;
* kernel primitives whose bodies live outside `src/` (error-pointer macros,
  atomic operations, spinlock/work-item initialisation macros) are modelled
  from the specification, each marked `Modelled from the spec:` in its doc
  comment;
* the file layout (function definitions and `EXPORT_SYMBOL_GPL` registrations,
  with their `#ifdef` guards) is embedded as a list of declaration items
  parameterised by the build configuration.

Machine pointers and unsigned scalars are embedded as `Nat`, signed scalars
as `Int`, C `bool` as `Bool`.
-/

namespace ErrPtr

/-! ### Error-pointer encoding

The wrappers `rust_helper_ERR_PTR`, `rust_helper_IS_ERR` and
`rust_helper_PTR_ERR` forward to the kernel macros of `include/linux/err.h`,
which are not part of `src/`.  The macros are modelled from the spec: an
error code is encoded as a pointer value in the reserved topmost address
range of the 64-bit address space, `IS_ERR` tests membership in that range,
and `PTR_ERR` reinterprets the pointer value as a signed machine word. -/

/-- Width (in values) of a 64-bit machine word. -/
def WORD : Nat := 2 ^ 64

/-- Modelled from the spec: size of the reserved error range at the top of
the address space (the kernel's largest representable errno magnitude). -/
def MAX_ERRNO : Nat := 4095

/-- Modelled from the spec: encode an error code as a tagged pointer value
(the signed code reinterpreted as an unsigned machine word). -/
def ERR_PTR (err : Int) : Nat := (err % (WORD : Int)).toNat

/-- Modelled from the spec: a pointer is error-tagged exactly when it lies in
the reserved topmost `MAX_ERRNO` addresses. -/
def IS_ERR (ptr : Nat) : Bool := decide (WORD - MAX_ERRNO ≤ ptr)

/-- Modelled from the spec: decode an error-tagged pointer by reinterpreting
the unsigned pointer value as a signed machine word (two's complement). -/
def PTR_ERR (ptr : Nat) : Int :=
  if ptr < 2 ^ 63 then (ptr : Int) else (ptr : Int) - (WORD : Int)

/-- Wrapper from the source: returns `ERR_PTR(err)`. -/
def rust_helper_ERR_PTR (err : Int) : Nat := ERR_PTR err

/-- Wrapper from the source: returns `IS_ERR(ptr)`. -/
def rust_helper_IS_ERR (ptr : Nat) : Bool := IS_ERR ptr

/-- Wrapper from the source: returns `PTR_ERR(ptr)`. -/
def rust_helper_PTR_ERR (ptr : Nat) : Int := PTR_ERR ptr

end ErrPtr

namespace SizeCheck

/-! ### The `size_t`/`uintptr_t` static assertion -/

/-- The platform parameters the static assertion at lines 97-101 of
`helpers_combined.c` constrains: size and alignment of `size_t` and of
`uintptr_t`. -/
structure Platform where
  size_t_size : Nat
  uintptr_t_size : Nat
  size_t_align : Nat
  uintptr_t_align : Nat

/-- The condition of the `static_assert` in the source: `sizeof(size_t) ==
sizeof(uintptr_t) && __alignof__(size_t) == __alignof__(uintptr_t)`. -/
def sizeUsizeAssert (p : Platform) : Bool :=
  (p.size_t_size == p.uintptr_t_size) && (p.size_t_align == p.uintptr_t_align)

/-- C semantics of `static_assert`: translation of the shim layer succeeds
exactly when the asserted condition holds on the target platform. -/
def shimCompiles (p : Platform) : Bool := sizeUsizeAssert p

end SizeCheck

namespace Abort

/-! ### The fatal-abort wrapper -/

/-- Outcome of running a piece of code from kernel state `S`: either control
returns to the caller with a final state, or the process aborts and control
never comes back. -/
inductive Outcome (S : Type) where
  | returns (s : S)
  | aborted
deriving DecidableEq

/-- Modelled from the spec: `BUG()` is the kernel fatal-trap primitive; it
aborts the process and never returns. -/
def BUG {S : Type} (_s : S) : Outcome S := Outcome.aborted

/-- Wrapper from the source: `rust_helper_BUG` calls `BUG()`. -/
def rust_helper_BUG {S : Type} (s : S) : Outcome S := BUG s

end Abort

/-- C3: encoding any representable error code with `rust_helper_ERR_PTR`
round-trips: `rust_helper_IS_ERR` classifies the result as an error and
`rust_helper_PTR_ERR` recovers the original code; and no pointer outside the
reserved error range is classified as an error. -/
theorem c3_err_ptr_roundtrip :
    (∀ e : Int, -4095 ≤ e → e ≤ -1 →
      ErrPtr.rust_helper_IS_ERR (ErrPtr.rust_helper_ERR_PTR e) = true ∧
      ErrPtr.rust_helper_PTR_ERR (ErrPtr.rust_helper_ERR_PTR e) = e) ∧
    (∀ p : Nat, p < ErrPtr.WORD - ErrPtr.MAX_ERRNO →
      ErrPtr.rust_helper_IS_ERR p = false) := by
  constructor
  · intro e h1 h2
    constructor
    · unfold ErrPtr.rust_helper_IS_ERR ErrPtr.rust_helper_ERR_PTR
        ErrPtr.IS_ERR ErrPtr.ERR_PTR ErrPtr.WORD ErrPtr.MAX_ERRNO
      simp only [decide_eq_true_eq]
      omega
    · unfold ErrPtr.rust_helper_PTR_ERR ErrPtr.rust_helper_ERR_PTR
        ErrPtr.PTR_ERR ErrPtr.ERR_PTR ErrPtr.WORD
      split <;> omega
  · intro p hp
    unfold ErrPtr.rust_helper_IS_ERR ErrPtr.IS_ERR
    unfold ErrPtr.WORD ErrPtr.MAX_ERRNO at hp ⊢
    simp only [decide_eq_false_iff_not]
    omega

/-- Witness for C3 at the concrete error code -12 and the concrete non-error
pointer 42. -/
theorem c3_err_ptr_roundtrip_witness :
    (ErrPtr.rust_helper_IS_ERR (ErrPtr.rust_helper_ERR_PTR (-12)) = true ∧
      ErrPtr.rust_helper_PTR_ERR (ErrPtr.rust_helper_ERR_PTR (-12)) = -12) ∧
    ErrPtr.rust_helper_IS_ERR 42 = false :=
  ⟨c3_err_ptr_roundtrip.1 (-12) (by decide) (by decide),
   c3_err_ptr_roundtrip.2 42 (by decide)⟩

/-- C9: the shim layer compiles exactly on the platforms where `size_t` and
`uintptr_t` agree in size and alignment; on every platform where they differ
the static assertion fails the build, so a compiled shim can never observe a
`size_t`/`usize` width mismatch at run time. -/
theorem c9_size_t_usize_static_assert :
    ∀ p : SizeCheck.Platform,
      (SizeCheck.shimCompiles p = true ↔
        (p.size_t_size = p.uintptr_t_size ∧ p.size_t_align = p.uintptr_t_align)) ∧
      (SizeCheck.shimCompiles p = true → p.size_t_size = p.uintptr_t_size) := by
  intro p
  constructor
  · simp [SizeCheck.shimCompiles, SizeCheck.sizeUsizeAssert]
  · intro h
    simp only [SizeCheck.shimCompiles, SizeCheck.sizeUsizeAssert,
      Bool.and_eq_true, beq_iff_eq] at h
    exact h.1

/-- Witness for C9: a platform with matching widths compiles, one with an
8-byte `size_t` and 4-byte `uintptr_t` does not. -/
theorem c9_size_t_usize_static_assert_witness :
    SizeCheck.shimCompiles ⟨8, 8, 8, 8⟩ = true ∧
    SizeCheck.shimCompiles ⟨8, 4, 8, 4⟩ = false :=
  ⟨((c9_size_t_usize_static_assert ⟨8, 8, 8, 8⟩).1).mpr ⟨rfl, rfl⟩, by decide⟩

/-- C8: the fatal-abort wrapper never returns: from every starting state its
outcome is `aborted`, never `returns`, exactly the contract of the wrapped
fatal-trap primitive. -/
theorem c8_bug_never_returns :
    ∀ (S : Type) (s : S),
      Abort.rust_helper_BUG s = Abort.Outcome.aborted ∧
      Abort.rust_helper_BUG s = Abort.BUG s := by
  intro S s
  exact ⟨rfl, rfl⟩

namespace Work

/-! ### The work-item initializer

`rust_helper_init_work_with_key` (lines 524-534 of `helpers_combined.c`)
performs five sub-steps in a fixed order.  The sub-primitives are kernel
macros outside `src/` and are modelled from the spec; the sequence itself is
the translation of the wrapper's body.  Each sub-step records an event, so
the order of the performed steps is observable. -/

/-- The five sub-steps, each recording the data it installs. -/
inductive WorkEvent where
  | init_work_debug (onstack : Bool)
  | set_data (v : Int)
  | lockdep_init (name : String) (key : Nat)
  | init_list_head
  | set_func (f : Nat)
deriving DecidableEq

/-- A deferred-work descriptor: scheduling-state word, lockdep metadata,
linkage node (embedded as the list of queued neighbours) and callback. -/
structure work_struct where
  data : Int
  lockdep_name : Option String
  lockdep_key : Option Nat
  entry : List Nat
  func : Option Nat
deriving DecidableEq

/-- A work descriptor together with the trace of initialisation sub-steps
performed on it so far. -/
abbrev WorkM := work_struct × List WorkEvent

/-- Modelled from the spec: `__init_work(work, onstack)` marks the item as
not-static-data for the debug-objects machinery; it changes no field of the
descriptor itself. -/
def __init_work (m : WorkM) (onstack : Bool) : WorkM :=
  (m.1, m.2 ++ [WorkEvent.init_work_debug onstack])

/-- Modelled from the spec: the initial value of the internal
scheduling-state word installed by `WORK_DATA_INIT()`. -/
def WORK_DATA_INIT : Int := 0

/-- Translation of the assignment `work->data = (atomic_long_t)
WORK_DATA_INIT();`: reset the scheduling-state word. -/
def set_data (m : WorkM) (v : Int) : WorkM :=
  ({ m.1 with data := v }, m.2 ++ [WorkEvent.set_data v])

/-- Modelled from the spec: `lockdep_init_map(&work->lockdep_map, name, key,
0)` installs the diagnostic tracking metadata. -/
def lockdep_init_map (m : WorkM) (name : String) (key : Nat) : WorkM :=
  ({ m.1 with lockdep_name := some name, lockdep_key := some key },
   m.2 ++ [WorkEvent.lockdep_init name key])

/-- Modelled from the spec: `INIT_LIST_HEAD(&work->entry)` resets the linkage
node to the empty (self-linked) list. -/
def INIT_LIST_HEAD (m : WorkM) : WorkM :=
  ({ m.1 with entry := [] }, m.2 ++ [WorkEvent.init_list_head])

/-- Translation of the assignment `work->func = func;`: install the callback
pointer. -/
def set_func (m : WorkM) (f : Nat) : WorkM :=
  ({ m.1 with func := some f }, m.2 ++ [WorkEvent.set_func f])

/-- Translation of `rust_helper_init_work_with_key(work, func, onstack,
name, key)`: the five sub-steps of the source body, in source order. -/
def rust_helper_init_work_with_key (work : work_struct) (func : Nat)
    (onstack : Bool) (name : String) (key : Nat) : WorkM :=
  let m : WorkM := (work, [])
  let m := __init_work m onstack
  let m := set_data m WORK_DATA_INIT
  let m := lockdep_init_map m name key
  let m := INIT_LIST_HEAD m
  set_func m func

end Work

/-- C4: the work-item initializer performs exactly the five forwarded
sub-steps mark-not-static-data, reset-scheduling-state-word,
install-diagnostic-metadata, reset-linkage-node, install-callback, in this
order; afterwards the callback pointer equals the supplied callback and the
linkage node is the empty list. -/
theorem c4_init_work_five_steps :
    ∀ (work : Work.work_struct) (func : Nat) (onstack : Bool) (name : String)
      (key : Nat),
      (Work.rust_helper_init_work_with_key work func onstack name key).2 =
        [Work.WorkEvent.init_work_debug onstack,
         Work.WorkEvent.set_data Work.WORK_DATA_INIT,
         Work.WorkEvent.lockdep_init name key,
         Work.WorkEvent.init_list_head,
         Work.WorkEvent.set_func func] ∧
      (Work.rust_helper_init_work_with_key work func onstack name key).1.func
        = some func ∧
      (Work.rust_helper_init_work_with_key work func onstack name key).1.entry
        = [] := by
  intro work func onstack name key
  exact ⟨rfl, rfl, rfl⟩

namespace Spin

/-! ### Spinlock initialisation, acquire and release

`rust_helper___spin_lock_init` (lines 465-474 of `helpers_combined.c`) has
two compile-time branches selected by `CONFIG_DEBUG_SPINLOCK`, embedded here
as a `Bool` parameter.  The kernel initialisation/acquire/release primitives
are macros outside `src/`, modelled from the spec. -/

/-- A spinlock: whether it has been initialised, whether it is held, and the
lockdep name/class-key metadata recorded for it (absent on the plain path). -/
structure spinlock_t where
  initialized : Bool
  locked : Bool
  name : Option String
  key : Option Nat
deriving DecidableEq

/-- Modelled from the spec: `spinlock_check(lock)` only converts the
`spinlock_t` to its contained raw lock; on this model it is the identity. -/
def spinlock_check (lock : spinlock_t) : spinlock_t := lock

/-- Modelled from the spec: the lockdep wait-type constant the debug branch
passes; its concrete value does not matter to any claim. -/
def LD_WAIT_CONFIG : Nat := 0

/-- Modelled from the spec: the debug-instrumented raw initializer records
the supplied name and static lock-class key and leaves the lock released. -/
def __raw_spin_lock_init (_lock : spinlock_t) (name : String) (key : Nat)
    (_wait_type : Nat) : spinlock_t :=
  { initialized := true, locked := false, name := some name, key := some key }

/-- Modelled from the spec: the plain initializer leaves the lock released
and records no metadata. -/
def spin_lock_init (_lock : spinlock_t) : spinlock_t :=
  { initialized := true, locked := false, name := none, key := none }

/-- Translation of `rust_helper___spin_lock_init(lock, name, key)`: under
`CONFIG_DEBUG_SPINLOCK`, `__raw_spin_lock_init(spinlock_check(lock), name,
key, LD_WAIT_CONFIG)`; otherwise `spin_lock_init(lock)`. -/
def rust_helper___spin_lock_init (debug_spinlock : Bool) (lock : spinlock_t)
    (name : String) (key : Nat) : spinlock_t :=
  if debug_spinlock then
    __raw_spin_lock_init (spinlock_check lock) name key LD_WAIT_CONFIG
  else
    spin_lock_init lock

/-- Modelled from the spec: acquiring an initialised, currently free spinlock
succeeds and holds the lock (acquiring an uninitialised or held lock instead
spins or faults, modelled as `none`). -/
def spin_lock (l : spinlock_t) : Option spinlock_t :=
  if l.initialized && !l.locked then some { l with locked := true } else none

/-- Modelled from the spec: releasing a spinlock clears the held flag. -/
def spin_unlock (l : spinlock_t) : spinlock_t := { l with locked := false }

/-- Wrapper from the source: forwards to `spin_lock`. -/
def rust_helper_spin_lock (l : spinlock_t) : Option spinlock_t := spin_lock l

/-- Wrapper from the source: forwards to `spin_unlock`. -/
def rust_helper_spin_unlock (l : spinlock_t) : spinlock_t := spin_unlock l

end Spin

/-- C5: the spinlock initializer has exactly the two compile-time branches:
under the lock-debug configuration the resulting lock records the supplied
name and class key, under the plain configuration it records neither; and in
both configurations the resulting lock is acquirable by the spin-lock
wrapper and releasable by the spin-unlock wrapper. -/
theorem c5_spin_lock_init_two_branches :
    ∀ (lock : Spin.spinlock_t) (name : String) (key : Nat),
      (Spin.rust_helper___spin_lock_init true lock name key).name = some name ∧
      (Spin.rust_helper___spin_lock_init true lock name key).key = some key ∧
      (Spin.rust_helper___spin_lock_init false lock name key).name = none ∧
      (Spin.rust_helper___spin_lock_init false lock name key).key = none ∧
      (∀ debug : Bool, ∃ held : Spin.spinlock_t,
        Spin.rust_helper_spin_lock
            (Spin.rust_helper___spin_lock_init debug lock name key) =
          some held ∧
        held.locked = true ∧
        (Spin.rust_helper_spin_unlock held).locked = false ∧
        (Spin.rust_helper_spin_unlock held).initialized = true) := by
  intro lock name key
  refine ⟨rfl, rfl, rfl, rfl, ?_⟩
  intro debug
  cases debug with
  | false => exact ⟨_, rfl, rfl, rfl, rfl⟩
  | true => exact ⟨_, rfl, rfl, rfl, rfl⟩

namespace ReqRef

/-! ### The request reference-count increment-if-nonzero wrapper

`rust_helper_req_ref_inc_not_zero` (lines 32-36 of `helpers_combined.c`)
returns `atomic_inc_not_zero(&req->ref)`.  The atomic primitive is kernel
code outside `src/`, modelled from the spec. -/

/-- The single kind of atomic operation the wrapper performs. -/
inductive AtomicOp where
  | inc_not_zero
deriving DecidableEq

/-- A block-layer request, reduced to the one field the wrapper touches: its
atomic reference count. -/
structure request where
  ref : Nat
deriving DecidableEq

/-- Modelled from the spec: `atomic_inc_not_zero` is a single atomic
read-modify-write that increments the counter unless it is zero and reports
whether it incremented. -/
def atomic_inc_not_zero (c : Nat) : Bool × Nat :=
  if c = 0 then (false, c) else (true, c + 1)

/-- Translation of `rust_helper_req_ref_inc_not_zero(req)`: one call of
`atomic_inc_not_zero` on the request's reference count.  Returns the
wrapper's boolean result, the updated request, and the list of atomic
operations performed. -/
def rust_helper_req_ref_inc_not_zero (req : request) :
    (Bool × request) × List AtomicOp :=
  let r := atomic_inc_not_zero req.ref
  ((r.1, { req with ref := r.2 }), [AtomicOp.inc_not_zero])

end ReqRef

/-- C6: on a request whose reference count is zero the increment-if-nonzero
wrapper returns false and leaves the count unchanged; on a request whose
count is at least one it returns true and increases the count by exactly
one; in both cases it performs a single atomic operation. -/
theorem c6_req_ref_inc_not_zero :
    ∀ req : ReqRef.request,
      (req.ref = 0 →
        ReqRef.rust_helper_req_ref_inc_not_zero req =
          ((false, req), [ReqRef.AtomicOp.inc_not_zero])) ∧
      (1 ≤ req.ref →
        (ReqRef.rust_helper_req_ref_inc_not_zero req).1.1 = true ∧
        (ReqRef.rust_helper_req_ref_inc_not_zero req).1.2.ref = req.ref + 1 ∧
        (ReqRef.rust_helper_req_ref_inc_not_zero req).2 =
          [ReqRef.AtomicOp.inc_not_zero]) := by
  intro req
  constructor
  · intro h0
    cases req with
    | mk r =>
      have hr : r = 0 := h0
      subst hr
      simp [ReqRef.rust_helper_req_ref_inc_not_zero,
        ReqRef.atomic_inc_not_zero]
  · intro h1
    have hne : req.ref ≠ 0 := by omega
    simp [ReqRef.rust_helper_req_ref_inc_not_zero, ReqRef.atomic_inc_not_zero,
      hne]

/-- Witness for C6 at the concrete counts 0 and 3. -/
theorem c6_req_ref_inc_not_zero_witness :
    ReqRef.rust_helper_req_ref_inc_not_zero ⟨0⟩ =
      ((false, ⟨0⟩), [ReqRef.AtomicOp.inc_not_zero]) ∧
    (ReqRef.rust_helper_req_ref_inc_not_zero ⟨3⟩).1.1 = true ∧
    (ReqRef.rust_helper_req_ref_inc_not_zero ⟨3⟩).1.2.ref = 4 :=
  ⟨(c6_req_ref_inc_not_zero ⟨0⟩).1 rfl,
   ((c6_req_ref_inc_not_zero ⟨3⟩).2 (by decide)).1,
   ((c6_req_ref_inc_not_zero ⟨3⟩).2 (by decide)).2.1⟩

namespace Symtab

/-! ### The file layout: wrapper definitions and export registrations

The top-level items of `helpers_combined.c` that matter to symbol
registration, in source order: each wrapper function definition and each
`EXPORT_SYMBOL_GPL` registration, under the `#ifdef` guards of the source
(`CONFIG_NUMA` absent, `CONFIG_64BIT` present), embedded as the two `Bool`
parameters `numa` and `is64`. -/

/-- A top-level item of a helper source file: a wrapper function definition
or an export-symbol registration. -/
inductive CItem where
  | fn (name : String)
  | exportSym (name : String)
deriving DecidableEq

def helpersItems (numa is64 : Bool) : List CItem :=
  [
     CItem.fn "rust_helper_req_bvec",
     CItem.exportSym "rust_helper_req_bvec",
     CItem.fn "rust_helper_blk_mq_rq_to_pdu",
     CItem.exportSym "rust_helper_blk_mq_rq_to_pdu",
     CItem.fn "rust_helper_blk_mq_rq_from_pdu",
     CItem.exportSym "rust_helper_blk_mq_rq_from_pdu",
     CItem.fn "rust_helper_bio_advance_iter_single",
     CItem.exportSym "rust_helper_bio_advance_iter_single",
     CItem.fn "rust_helper_req_ref_inc_not_zero",
     CItem.exportSym "rust_helper_req_ref_inc_not_zero",
     CItem.fn "rust_helper_req_ref_put_and_test",
     CItem.exportSym "rust_helper_req_ref_put_and_test",
     CItem.fn "rust_helper_blk_mq_free_request_internal",
     CItem.exportSym "rust_helper_blk_mq_free_request_internal",
     CItem.fn "rust_helper_blk_mq_tag_to_rq",
     CItem.exportSym "rust_helper_blk_mq_tag_to_rq",
     CItem.fn "rust_helper_blk_rq_payload_bytes",
     CItem.exportSym "rust_helper_blk_rq_payload_bytes",
     CItem.fn "rust_helper_blk_rq_nr_phys_segments",
     CItem.exportSym "rust_helper_blk_rq_nr_phys_segments",
     CItem.fn "rust_helper_BUG",
     CItem.exportSym "rust_helper_BUG",
     CItem.fn "rust_helper_errname",
     CItem.exportSym "rust_helper_errname",
     CItem.fn "rust_helper_num_possible_cpus",
     CItem.exportSym "rust_helper_num_possible_cpus",
     CItem.fn "rust_helper_mdelay",
     CItem.exportSym "rust_helper_mdelay",
     CItem.fn "rust_helper_dev_get_drvdata",
     CItem.exportSym "rust_helper_dev_get_drvdata",
     CItem.fn "rust_helper_dev_name",
     CItem.exportSym "rust_helper_dev_name",
     CItem.fn "rust_helper_ERR_PTR",
     CItem.exportSym "rust_helper_ERR_PTR",
     CItem.fn "rust_helper_IS_ERR",
     CItem.exportSym "rust_helper_IS_ERR",
     CItem.fn "rust_helper_PTR_ERR",
     CItem.exportSym "rust_helper_PTR_ERR",
     CItem.fn "rust_helper_folio_get",
     CItem.exportSym "rust_helper_folio_get",
     CItem.fn "rust_helper_folio_put",
     CItem.exportSym "rust_helper_folio_put",
     CItem.fn "rust_helper_folio_page",
     CItem.fn "rust_helper_folio_pos",
     CItem.exportSym "rust_helper_folio_pos",
     CItem.fn "rust_helper_folio_size",
     CItem.exportSym "rust_helper_folio_size",
     CItem.fn "rust_helper_folio_mark_uptodate",
     CItem.exportSym "rust_helper_folio_mark_uptodate",
     CItem.fn "rust_helper_folio_set_error",
     CItem.exportSym "rust_helper_folio_set_error"] ++
  (if numa then [] else
  [
     CItem.fn "rust_helper_folio_alloc",
     CItem.exportSym "rust_helper_folio_alloc"]) ++
  [
     CItem.fn "rust_helper_flush_dcache_folio",
     CItem.exportSym "rust_helper_flush_dcache_folio",
     CItem.fn "rust_helper_kmap_local_folio",
     CItem.exportSym "rust_helper_kmap_local_folio",
     CItem.fn "rust_helper_kmap",
     CItem.exportSym "rust_helper_kmap",
     CItem.fn "rust_helper_kunmap",
     CItem.exportSym "rust_helper_kunmap",
     CItem.fn "rust_helper_readb",
     CItem.exportSym "rust_helper_readb",
     CItem.fn "rust_helper_readw",
     CItem.exportSym "rust_helper_readw",
     CItem.fn "rust_helper_readl",
     CItem.exportSym "rust_helper_readl"] ++
  (if is64 then
  [
     CItem.fn "rust_helper_readq",
     CItem.exportSym "rust_helper_readq"] else []) ++
  [
     CItem.fn "rust_helper_writeb",
     CItem.exportSym "rust_helper_writeb",
     CItem.fn "rust_helper_writew",
     CItem.exportSym "rust_helper_writew",
     CItem.fn "rust_helper_writel",
     CItem.exportSym "rust_helper_writel"] ++
  (if is64 then
  [
     CItem.fn "rust_helper_writeq",
     CItem.exportSym "rust_helper_writeq"] else []) ++
  [
     CItem.fn "rust_helper_readb_relaxed",
     CItem.exportSym "rust_helper_readb_relaxed",
     CItem.fn "rust_helper_readw_relaxed",
     CItem.exportSym "rust_helper_readw_relaxed",
     CItem.fn "rust_helper_readl_relaxed",
     CItem.exportSym "rust_helper_readl_relaxed"] ++
  (if is64 then
  [
     CItem.fn "rust_helper_readq_relaxed",
     CItem.exportSym "rust_helper_readq_relaxed"] else []) ++
  [
     CItem.fn "rust_helper_writeb_relaxed",
     CItem.exportSym "rust_helper_writeb_relaxed",
     CItem.fn "rust_helper_writew_relaxed",
     CItem.exportSym "rust_helper_writew_relaxed",
     CItem.fn "rust_helper_writel_relaxed",
     CItem.exportSym "rust_helper_writel_relaxed"] ++
  (if is64 then
  [
     CItem.fn "rust_helper_writeq_relaxed",
     CItem.exportSym "rust_helper_writeq_relaxed"] else []) ++
  [
     CItem.fn "rust_helper_memcpy_fromio",
     CItem.exportSym "rust_helper_memcpy_fromio",
     CItem.fn "rust_helper_kunit_get_current_test",
     CItem.exportSym "rust_helper_kunit_get_current_test",
     CItem.fn "rust_helper_mutex_lock",
     CItem.exportSym "rust_helper_mutex_lock",
     CItem.fn "rust_helper_alloc_pages",
     CItem.exportSym "rust_helper_alloc_pages",
     CItem.fn "rust_helper_kmap_local_page",
     CItem.exportSym "rust_helper_kmap_local_page",
     CItem.fn "rust_helper_kunmap_local",
     CItem.exportSym "rust_helper_kunmap_local",
     CItem.fn "rust_helper_pci_set_drvdata",
     CItem.exportSym "rust_helper_pci_set_drvdata",
     CItem.fn "rust_helper_pci_get_drvdata",
     CItem.exportSym "rust_helper_pci_get_drvdata",
     CItem.fn "rust_helper_rcu_read_lock",
     CItem.exportSym "rust_helper_rcu_read_lock",
     CItem.fn "rust_helper_rcu_read_unlock",
     CItem.exportSym "rust_helper_rcu_read_unlock",
     CItem.fn "rust_helper_REFCOUNT_INIT",
     CItem.exportSym "rust_helper_REFCOUNT_INIT",
     CItem.fn "rust_helper_refcount_inc",
     CItem.exportSym "rust_helper_refcount_inc",
     CItem.fn "rust_helper_refcount_dec_and_test",
     CItem.exportSym "rust_helper_refcount_dec_and_test",
     CItem.fn "rust_helper_signal_pending",
     CItem.exportSym "rust_helper_signal_pending",
     CItem.fn "rust_helper___spin_lock_init",
     CItem.exportSym "rust_helper___spin_lock_init",
     CItem.fn "rust_helper_spin_lock",
     CItem.exportSym "rust_helper_spin_lock",
     CItem.fn "rust_helper_spin_unlock",
     CItem.exportSym "rust_helper_spin_unlock",
     CItem.fn "rust_helper_get_current",
     CItem.exportSym "rust_helper_get_current",
     CItem.fn "rust_helper_get_task_struct",
     CItem.exportSym "rust_helper_get_task_struct",
     CItem.fn "rust_helper_put_task_struct",
     CItem.exportSym "rust_helper_put_task_struct",
     CItem.fn "rust_helper_init_wait",
     CItem.exportSym "rust_helper_init_wait",
     CItem.fn "rust_helper_init_work_with_key",
     CItem.exportSym "rust_helper_init_work_with_key"]

/-- The items of `src/unnamed/part_000`, in source order. -/
def part000Items : List CItem :=
  [CItem.fn "rust_helper_pci_set_drvdata",
   CItem.exportSym "rust_helper_pci_set_drvdata",
   CItem.fn "rust_helper_pci_get_drvdata",
   CItem.exportSym "rust_helper_pci_get_drvdata",
   CItem.fn "rust_helper_pci_resource_start",
   CItem.exportSym "rust_helper_pci_resource_start"]

/-- Names of the wrapper functions a file defines. -/
def definedWrappers (items : List CItem) : List String :=
  items.filterMap fun i =>
    match i with
    | CItem.fn n => some n
    | CItem.exportSym _ => none

/-- Whether a file registers the named symbol for dynamic resolution. -/
def registered (items : List CItem) (n : String) : Bool :=
  items.contains (CItem.exportSym n)

/-- The wrappers a file defines but never registers. -/
def unexported (items : List CItem) : List String :=
  (definedWrappers items).filter fun n => !(registered items n)

end Symtab

/-- C2 is violated by the code: in every build configuration the wrapper
`rust_helper_folio_page` is defined but is the one wrapper of the shim layer
with no export-symbol registration; every other wrapper of both source files
is registered. -/
theorem c2_folio_page_unexported :
    ∀ numa is64 : Bool,
      Symtab.unexported (Symtab.helpersItems numa is64) =
        ["rust_helper_folio_page"] ∧
      Symtab.unexported Symtab.part000Items = [] ∧
      (Symtab.helpersItems numa is64).contains
        (Symtab.CItem.fn "rust_helper_folio_page") = true := by
  intro numa is64
  cases numa <;> cases is64 <;> exact ⟨by decide, by decide, by decide⟩

/-- C7: the conditionally compiled wrappers are defined and registered
exactly when their governing configuration is active: the folio-allocation
wrapper exactly when NUMA support is absent, and the four 64-bit MMIO
wrappers (ordered and relaxed, read and write) exactly when the 64-bit
configuration is active. -/
theorem c7_conditional_exports :
    ∀ numa is64 : Bool,
      ((Symtab.helpersItems numa is64).contains
        (Symtab.CItem.fn "rust_helper_folio_alloc") = !numa) ∧
      ((Symtab.helpersItems numa is64).contains
        (Symtab.CItem.exportSym "rust_helper_folio_alloc") = !numa) ∧
      ((Symtab.helpersItems numa is64).contains
        (Symtab.CItem.exportSym "rust_helper_readq") = is64) ∧
      ((Symtab.helpersItems numa is64).contains
        (Symtab.CItem.exportSym "rust_helper_writeq") = is64) ∧
      ((Symtab.helpersItems numa is64).contains
        (Symtab.CItem.exportSym "rust_helper_readq_relaxed") = is64) ∧
      ((Symtab.helpersItems numa is64).contains
        (Symtab.CItem.exportSym "rust_helper_writeq_relaxed") = is64) := by
  intro numa is64
  cases numa <;> cases is64 <;>
    exact ⟨by decide, by decide, by decide, by decide, by decide, by decide⟩

namespace Shim

/-! ### Single-call wrappers as forwarding functions

Every wrapper of `helpers_combined.c` whose body is a single call (that is,
all of them except `rust_helper___spin_lock_init` and
`rust_helper_init_work_with_key`) is embedded as a Lean function taking the
wrapped primitive as a parameter: an arbitrary function over an abstract
kernel-state type `S`, returning the possibly updated state and (when the C
primitive returns a value) its result.  The body of each definition is the
one call the C source performs.  Pointers and unsigned scalars are `Nat`,
signed scalars `Int`, C `bool` is `Bool`. -/

def rust_helper_req_bvec {S : Type} (req_bvec : Nat → S → S × Nat)
    (rq : Nat) (s : S) : S × Nat :=
  req_bvec rq s

def rust_helper_blk_mq_rq_to_pdu {S : Type}
    (blk_mq_rq_to_pdu : Nat → S → S × Nat) (rq : Nat) (s : S) : S × Nat :=
  blk_mq_rq_to_pdu rq s

def rust_helper_blk_mq_rq_from_pdu {S : Type}
    (blk_mq_rq_from_pdu : Nat → S → S × Nat) (pdu : Nat) (s : S) : S × Nat :=
  blk_mq_rq_from_pdu pdu s

def rust_helper_bio_advance_iter_single {S : Type}
    (bio_advance_iter_single : Nat → Nat → Nat → S → S)
    (bio iter bytes : Nat) (s : S) : S :=
  bio_advance_iter_single bio iter bytes s

def rust_helper_req_ref_inc_not_zero {S : Type}
    (req_ref_inc_not_zero : Nat → S → S × Bool) (req : Nat) (s : S) :
    S × Bool :=
  req_ref_inc_not_zero req s

def rust_helper_req_ref_put_and_test {S : Type}
    (req_ref_put_and_test : Nat → S → S × Bool) (req : Nat) (s : S) :
    S × Bool :=
  req_ref_put_and_test req s

def rust_helper_blk_mq_free_request_internal {S : Type}
    (__blk_mq_free_request : Nat → S → S) (req : Nat) (s : S) : S :=
  __blk_mq_free_request req s

def rust_helper_blk_mq_tag_to_rq {S : Type}
    (blk_mq_tag_to_rq : Nat → Nat → S → S × Nat) (tags tag : Nat) (s : S) :
    S × Nat :=
  blk_mq_tag_to_rq tags tag s

def rust_helper_blk_rq_payload_bytes {S : Type}
    (blk_rq_payload_bytes : Nat → S → S × Nat) (rq : Nat) (s : S) : S × Nat :=
  blk_rq_payload_bytes rq s

def rust_helper_blk_rq_nr_phys_segments {S : Type}
    (blk_rq_nr_phys_segments : Nat → S → S × Nat) (rq : Nat) (s : S) :
    S × Nat :=
  blk_rq_nr_phys_segments rq s

def rust_helper_BUG {S O : Type} (BUG : S → O) (s : S) : O := BUG s

def rust_helper_errname {S : Type} (errname : Int → S → S × Nat) (err : Int)
    (s : S) : S × Nat :=
  errname err s

def rust_helper_num_possible_cpus {S : Type}
    (num_possible_cpus : S → S × Nat) (s : S) : S × Nat :=
  num_possible_cpus s

def rust_helper_mdelay {S : Type} (mdelay : Nat → S → S) (ms : Nat) (s : S) :
    S :=
  mdelay ms s

def rust_helper_dev_get_drvdata {S : Type}
    (dev_get_drvdata : Nat → S → S × Nat) (dev : Nat) (s : S) : S × Nat :=
  dev_get_drvdata dev s

def rust_helper_dev_name {S : Type} (dev_name : Nat → S → S × Nat)
    (dev : Nat) (s : S) : S × Nat :=
  dev_name dev s

def rust_helper_ERR_PTR {S : Type} (ERR_PTR : Int → S → S × Nat) (err : Int)
    (s : S) : S × Nat :=
  ERR_PTR err s

def rust_helper_IS_ERR {S : Type} (IS_ERR : Nat → S → S × Bool) (ptr : Nat)
    (s : S) : S × Bool :=
  IS_ERR ptr s

def rust_helper_PTR_ERR {S : Type} (PTR_ERR : Nat → S → S × Int) (ptr : Nat)
    (s : S) : S × Int :=
  PTR_ERR ptr s

def rust_helper_folio_get {S : Type} (folio_get : Nat → S → S) (folio : Nat)
    (s : S) : S :=
  folio_get folio s

def rust_helper_folio_put {S : Type} (folio_put : Nat → S → S) (folio : Nat)
    (s : S) : S :=
  folio_put folio s

def rust_helper_folio_page {S : Type} (folio_page : Nat → Nat → S → S × Nat)
    (folio n : Nat) (s : S) : S × Nat :=
  folio_page folio n s

def rust_helper_folio_pos {S : Type} (folio_pos : Nat → S → S × Int)
    (folio : Nat) (s : S) : S × Int :=
  folio_pos folio s

def rust_helper_folio_size {S : Type} (folio_size : Nat → S → S × Nat)
    (folio : Nat) (s : S) : S × Nat :=
  folio_size folio s

def rust_helper_folio_mark_uptodate {S : Type}
    (folio_mark_uptodate : Nat → S → S) (folio : Nat) (s : S) : S :=
  folio_mark_uptodate folio s

def rust_helper_folio_set_error {S : Type} (folio_set_error : Nat → S → S)
    (folio : Nat) (s : S) : S :=
  folio_set_error folio s

def rust_helper_folio_alloc {S : Type}
    (folio_alloc : Nat → Nat → S → S × Nat) (gfp order : Nat) (s : S) :
    S × Nat :=
  folio_alloc gfp order s

def rust_helper_flush_dcache_folio {S : Type}
    (flush_dcache_folio : Nat → S → S) (folio : Nat) (s : S) : S :=
  flush_dcache_folio folio s

def rust_helper_kmap_local_folio {S : Type}
    (kmap_local_folio : Nat → Nat → S → S × Nat) (folio offset : Nat)
    (s : S) : S × Nat :=
  kmap_local_folio folio offset s

def rust_helper_kmap {S : Type} (kmap : Nat → S → S × Nat) (page : Nat)
    (s : S) : S × Nat :=
  kmap page s

def rust_helper_kunmap {S : Type} (kunmap : Nat → S → S) (page : Nat)
    (s : S) : S :=
  kunmap page s

def rust_helper_readb {S : Type} (readb : Nat → S → S × Nat) (addr : Nat)
    (s : S) : S × Nat :=
  readb addr s

def rust_helper_readw {S : Type} (readw : Nat → S → S × Nat) (addr : Nat)
    (s : S) : S × Nat :=
  readw addr s

def rust_helper_readl {S : Type} (readl : Nat → S → S × Nat) (addr : Nat)
    (s : S) : S × Nat :=
  readl addr s

def rust_helper_readq {S : Type} (readq : Nat → S → S × Nat) (addr : Nat)
    (s : S) : S × Nat :=
  readq addr s

def rust_helper_writeb {S : Type} (writeb : Nat → Nat → S → S)
    (value addr : Nat) (s : S) : S :=
  writeb value addr s

def rust_helper_writew {S : Type} (writew : Nat → Nat → S → S)
    (value addr : Nat) (s : S) : S :=
  writew value addr s

def rust_helper_writel {S : Type} (writel : Nat → Nat → S → S)
    (value addr : Nat) (s : S) : S :=
  writel value addr s

def rust_helper_writeq {S : Type} (writeq : Nat → Nat → S → S)
    (value addr : Nat) (s : S) : S :=
  writeq value addr s

def rust_helper_readb_relaxed {S : Type} (readb_relaxed : Nat → S → S × Nat)
    (addr : Nat) (s : S) : S × Nat :=
  readb_relaxed addr s

def rust_helper_readw_relaxed {S : Type} (readw_relaxed : Nat → S → S × Nat)
    (addr : Nat) (s : S) : S × Nat :=
  readw_relaxed addr s

def rust_helper_readl_relaxed {S : Type} (readl_relaxed : Nat → S → S × Nat)
    (addr : Nat) (s : S) : S × Nat :=
  readl_relaxed addr s

def rust_helper_readq_relaxed {S : Type} (readq_relaxed : Nat → S → S × Nat)
    (addr : Nat) (s : S) : S × Nat :=
  readq_relaxed addr s

def rust_helper_writeb_relaxed {S : Type}
    (writeb_relaxed : Nat → Nat → S → S) (value addr : Nat) (s : S) : S :=
  writeb_relaxed value addr s

def rust_helper_writew_relaxed {S : Type}
    (writew_relaxed : Nat → Nat → S → S) (value addr : Nat) (s : S) : S :=
  writew_relaxed value addr s

def rust_helper_writel_relaxed {S : Type}
    (writel_relaxed : Nat → Nat → S → S) (value addr : Nat) (s : S) : S :=
  writel_relaxed value addr s

def rust_helper_writeq_relaxed {S : Type}
    (writeq_relaxed : Nat → Nat → S → S) (value addr : Nat) (s : S) : S :=
  writeq_relaxed value addr s

def rust_helper_memcpy_fromio {S : Type}
    (memcpy_fromio : Nat → Nat → Int → S → S) (toAddr fromAddr : Nat)
    (count : Int) (s : S) : S :=
  memcpy_fromio toAddr fromAddr count s

def rust_helper_kunit_get_current_test {S : Type}
    (kunit_get_current_test : S → S × Nat) (s : S) : S × Nat :=
  kunit_get_current_test s

def rust_helper_mutex_lock {S : Type} (mutex_lock : Nat → S → S)
    (lock : Nat) (s : S) : S :=
  mutex_lock lock s

def rust_helper_alloc_pages {S : Type}
    (alloc_pages : Nat → Nat → S → S × Nat) (gfp_mask order : Nat) (s : S) :
    S × Nat :=
  alloc_pages gfp_mask order s

def rust_helper_kmap_local_page {S : Type}
    (kmap_local_page : Nat → S → S × Nat) (page : Nat) (s : S) : S × Nat :=
  kmap_local_page page s

def rust_helper_kunmap_local {S : Type} (kunmap_local : Nat → S → S)
    (addr : Nat) (s : S) : S :=
  kunmap_local addr s

def rust_helper_pci_set_drvdata {S : Type}
    (pci_set_drvdata : Nat → Nat → S → S) (pdev data : Nat) (s : S) : S :=
  pci_set_drvdata pdev data s

def rust_helper_pci_get_drvdata {S : Type}
    (pci_get_drvdata : Nat → S → S × Nat) (pdev : Nat) (s : S) : S × Nat :=
  pci_get_drvdata pdev s

def rust_helper_rcu_read_lock {S : Type} (rcu_read_lock : S → S) (s : S) :
    S :=
  rcu_read_lock s

def rust_helper_rcu_read_unlock {S : Type} (rcu_read_unlock : S → S)
    (s : S) : S :=
  rcu_read_unlock s

/-- The wrapped primitive is the pure compound-literal constructor
`REFCOUNT_INIT(n)`; the wrapper returns its value. -/
def rust_helper_REFCOUNT_INIT (REFCOUNT_INIT : Int → Int) (n : Int) : Int :=
  REFCOUNT_INIT n

def rust_helper_refcount_inc {S : Type} (refcount_inc : Nat → S → S)
    (r : Nat) (s : S) : S :=
  refcount_inc r s

def rust_helper_refcount_dec_and_test {S : Type}
    (refcount_dec_and_test : Nat → S → S × Bool) (r : Nat) (s : S) :
    S × Bool :=
  refcount_dec_and_test r s

def rust_helper_signal_pending {S : Type}
    (signal_pending : Nat → S → S × Int) (t : Nat) (s : S) : S × Int :=
  signal_pending t s

def rust_helper_spin_lock {S : Type} (spin_lock : Nat → S → S) (lock : Nat)
    (s : S) : S :=
  spin_lock lock s

def rust_helper_spin_unlock {S : Type} (spin_unlock : Nat → S → S)
    (lock : Nat) (s : S) : S :=
  spin_unlock lock s

/-- The wrapped primitive is the read of the per-CPU variable `current`; the
wrapper returns its value and changes nothing. -/
def rust_helper_get_current {S : Type} (current : S → Nat) (s : S) :
    S × Nat :=
  (s, current s)

def rust_helper_get_task_struct {S : Type} (get_task_struct : Nat → S → S)
    (t : Nat) (s : S) : S :=
  get_task_struct t s

def rust_helper_put_task_struct {S : Type} (put_task_struct : Nat → S → S)
    (t : Nat) (s : S) : S :=
  put_task_struct t s

def rust_helper_init_wait {S : Type} (init_wait : Nat → S → S)
    (wq_entry : Nat) (s : S) : S :=
  init_wait wq_entry s

end Shim

namespace Part000

/-! ### The wrappers of `src/unnamed/part_000`, embedded the same way -/

def rust_helper_pci_set_drvdata {S : Type}
    (pci_set_drvdata : Nat → Nat → S → S) (pdev data : Nat) (s : S) : S :=
  pci_set_drvdata pdev data s

def rust_helper_pci_get_drvdata {S : Type}
    (pci_get_drvdata : Nat → S → S × Nat) (pdev : Nat) (s : S) : S × Nat :=
  pci_get_drvdata pdev s

def rust_helper_pci_resource_start {S : Type}
    (pci_resource_start : Nat → Int → S → S × Nat) (pdev : Nat) (bar : Int)
    (s : S) : S × Nat :=
  pci_resource_start pdev bar s

end Part000

/-- C1 (amended): every wrapper of the shim layer whose body is a single
call — that is, every wrapper except the spinlock initializer
`rust_helper___spin_lock_init` and the work-item initializer
`rust_helper_init_work_with_key` — produces exactly the return value and
observable effects of calling its wrapped kernel primitive directly with the
same arguments: for every choice of primitive behaviour, every argument list
and every starting state, the wrapper equals the direct primitive call. -/
theorem c1_single_call_wrappers_forward :
    (∀ (S : Type) (f : Nat → S → S × Nat) (rq : Nat) (s : S),
      Shim.rust_helper_req_bvec f rq s = f rq s) ∧
    (∀ (S : Type) (f : Nat → S → S × Nat) (rq : Nat) (s : S),
      Shim.rust_helper_blk_mq_rq_to_pdu f rq s = f rq s) ∧
    (∀ (S : Type) (f : Nat → S → S × Nat) (pdu : Nat) (s : S),
      Shim.rust_helper_blk_mq_rq_from_pdu f pdu s = f pdu s) ∧
    (∀ (S : Type) (f : Nat → Nat → Nat → S → S) (bio iter bytes : Nat) (s : S),
      Shim.rust_helper_bio_advance_iter_single f bio iter bytes s = f bio iter bytes s) ∧
    (∀ (S : Type) (f : Nat → S → S × Bool) (req : Nat) (s : S),
      Shim.rust_helper_req_ref_inc_not_zero f req s = f req s) ∧
    (∀ (S : Type) (f : Nat → S → S × Bool) (req : Nat) (s : S),
      Shim.rust_helper_req_ref_put_and_test f req s = f req s) ∧
    (∀ (S : Type) (f : Nat → S → S) (req : Nat) (s : S),
      Shim.rust_helper_blk_mq_free_request_internal f req s = f req s) ∧
    (∀ (S : Type) (f : Nat → Nat → S → S × Nat) (tags tag : Nat) (s : S),
      Shim.rust_helper_blk_mq_tag_to_rq f tags tag s = f tags tag s) ∧
    (∀ (S : Type) (f : Nat → S → S × Nat) (rq : Nat) (s : S),
      Shim.rust_helper_blk_rq_payload_bytes f rq s = f rq s) ∧
    (∀ (S : Type) (f : Nat → S → S × Nat) (rq : Nat) (s : S),
      Shim.rust_helper_blk_rq_nr_phys_segments f rq s = f rq s) ∧
    (∀ (S O : Type) (f : S → O) (s : S), Shim.rust_helper_BUG f s = f s) ∧
    (∀ (S : Type) (f : Int → S → S × Nat) (err : Int) (s : S),
      Shim.rust_helper_errname f err s = f err s) ∧
    (∀ (S : Type) (f : S → S × Nat) (s : S),
      Shim.rust_helper_num_possible_cpus f s = f s) ∧
    (∀ (S : Type) (f : Nat → S → S) (ms : Nat) (s : S),
      Shim.rust_helper_mdelay f ms s = f ms s) ∧
    (∀ (S : Type) (f : Nat → S → S × Nat) (dev : Nat) (s : S),
      Shim.rust_helper_dev_get_drvdata f dev s = f dev s) ∧
    (∀ (S : Type) (f : Nat → S → S × Nat) (dev : Nat) (s : S),
      Shim.rust_helper_dev_name f dev s = f dev s) ∧
    (∀ (S : Type) (f : Int → S → S × Nat) (err : Int) (s : S),
      Shim.rust_helper_ERR_PTR f err s = f err s) ∧
    (∀ (S : Type) (f : Nat → S → S × Bool) (ptr : Nat) (s : S),
      Shim.rust_helper_IS_ERR f ptr s = f ptr s) ∧
    (∀ (S : Type) (f : Nat → S → S × Int) (ptr : Nat) (s : S),
      Shim.rust_helper_PTR_ERR f ptr s = f ptr s) ∧
    (∀ (S : Type) (f : Nat → S → S) (folio : Nat) (s : S),
      Shim.rust_helper_folio_get f folio s = f folio s) ∧
    (∀ (S : Type) (f : Nat → S → S) (folio : Nat) (s : S),
      Shim.rust_helper_folio_put f folio s = f folio s) ∧
    (∀ (S : Type) (f : Nat → Nat → S → S × Nat) (folio n : Nat) (s : S),
      Shim.rust_helper_folio_page f folio n s = f folio n s) ∧
    (∀ (S : Type) (f : Nat → S → S × Int) (folio : Nat) (s : S),
      Shim.rust_helper_folio_pos f folio s = f folio s) ∧
    (∀ (S : Type) (f : Nat → S → S × Nat) (folio : Nat) (s : S),
      Shim.rust_helper_folio_size f folio s = f folio s) ∧
    (∀ (S : Type) (f : Nat → S → S) (folio : Nat) (s : S),
      Shim.rust_helper_folio_mark_uptodate f folio s = f folio s) ∧
    (∀ (S : Type) (f : Nat → S → S) (folio : Nat) (s : S),
      Shim.rust_helper_folio_set_error f folio s = f folio s) ∧
    (∀ (S : Type) (f : Nat → Nat → S → S × Nat) (gfp order : Nat) (s : S),
      Shim.rust_helper_folio_alloc f gfp order s = f gfp order s) ∧
    (∀ (S : Type) (f : Nat → S → S) (folio : Nat) (s : S),
      Shim.rust_helper_flush_dcache_folio f folio s = f folio s) ∧
    (∀ (S : Type) (f : Nat → Nat → S → S × Nat) (folio offset : Nat) (s : S),
      Shim.rust_helper_kmap_local_folio f folio offset s = f folio offset s) ∧
    (∀ (S : Type) (f : Nat → S → S × Nat) (page : Nat) (s : S),
      Shim.rust_helper_kmap f page s = f page s) ∧
    (∀ (S : Type) (f : Nat → S → S) (page : Nat) (s : S),
      Shim.rust_helper_kunmap f page s = f page s) ∧
    (∀ (S : Type) (f : Nat → S → S × Nat) (addr : Nat) (s : S),
      Shim.rust_helper_readb f addr s = f addr s) ∧
    (∀ (S : Type) (f : Nat → S → S × Nat) (addr : Nat) (s : S),
      Shim.rust_helper_readw f addr s = f addr s) ∧
    (∀ (S : Type) (f : Nat → S → S × Nat) (addr : Nat) (s : S),
      Shim.rust_helper_readl f addr s = f addr s) ∧
    (∀ (S : Type) (f : Nat → S → S × Nat) (addr : Nat) (s : S),
      Shim.rust_helper_readq f addr s = f addr s) ∧
    (∀ (S : Type) (f : Nat → S → S × Nat) (addr : Nat) (s : S),
      Shim.rust_helper_readb_relaxed f addr s = f addr s) ∧
    (∀ (S : Type) (f : Nat → S → S × Nat) (addr : Nat) (s : S),
      Shim.rust_helper_readw_relaxed f addr s = f addr s) ∧
    (∀ (S : Type) (f : Nat → S → S × Nat) (addr : Nat) (s : S),
      Shim.rust_helper_readl_relaxed f addr s = f addr s) ∧
    (∀ (S : Type) (f : Nat → S → S × Nat) (addr : Nat) (s : S),
      Shim.rust_helper_readq_relaxed f addr s = f addr s) ∧
    (∀ (S : Type) (f : Nat → Nat → S → S) (value addr : Nat) (s : S),
      Shim.rust_helper_writeb f value addr s = f value addr s) ∧
    (∀ (S : Type) (f : Nat → Nat → S → S) (value addr : Nat) (s : S),
      Shim.rust_helper_writew f value addr s = f value addr s) ∧
    (∀ (S : Type) (f : Nat → Nat → S → S) (value addr : Nat) (s : S),
      Shim.rust_helper_writel f value addr s = f value addr s) ∧
    (∀ (S : Type) (f : Nat → Nat → S → S) (value addr : Nat) (s : S),
      Shim.rust_helper_writeq f value addr s = f value addr s) ∧
    (∀ (S : Type) (f : Nat → Nat → S → S) (value addr : Nat) (s : S),
      Shim.rust_helper_writeb_relaxed f value addr s = f value addr s) ∧
    (∀ (S : Type) (f : Nat → Nat → S → S) (value addr : Nat) (s : S),
      Shim.rust_helper_writew_relaxed f value addr s = f value addr s) ∧
    (∀ (S : Type) (f : Nat → Nat → S → S) (value addr : Nat) (s : S),
      Shim.rust_helper_writel_relaxed f value addr s = f value addr s) ∧
    (∀ (S : Type) (f : Nat → Nat → S → S) (value addr : Nat) (s : S),
      Shim.rust_helper_writeq_relaxed f value addr s = f value addr s) ∧
    (∀ (S : Type) (f : Nat → Nat → Int → S → S) (toAddr fromAddr : Nat) (count : Int) (s : S),
      Shim.rust_helper_memcpy_fromio f toAddr fromAddr count s = f toAddr fromAddr count s) ∧
    (∀ (S : Type) (f : S → S × Nat) (s : S),
      Shim.rust_helper_kunit_get_current_test f s = f s) ∧
    (∀ (S : Type) (f : Nat → S → S) (lock : Nat) (s : S),
      Shim.rust_helper_mutex_lock f lock s = f lock s) ∧
    (∀ (S : Type) (f : Nat → Nat → S → S × Nat) (gfp_mask order : Nat) (s : S),
      Shim.rust_helper_alloc_pages f gfp_mask order s = f gfp_mask order s) ∧
    (∀ (S : Type) (f : Nat → S → S × Nat) (page : Nat) (s : S),
      Shim.rust_helper_kmap_local_page f page s = f page s) ∧
    (∀ (S : Type) (f : Nat → S → S) (addr : Nat) (s : S),
      Shim.rust_helper_kunmap_local f addr s = f addr s) ∧
    (∀ (S : Type) (f : Nat → Nat → S → S) (pdev data : Nat) (s : S),
      Shim.rust_helper_pci_set_drvdata f pdev data s = f pdev data s) ∧
    (∀ (S : Type) (f : Nat → S → S × Nat) (pdev : Nat) (s : S),
      Shim.rust_helper_pci_get_drvdata f pdev s = f pdev s) ∧
    (∀ (S : Type) (f : S → S) (s : S),
      Shim.rust_helper_rcu_read_lock f s = f s) ∧
    (∀ (S : Type) (f : S → S) (s : S),
      Shim.rust_helper_rcu_read_unlock f s = f s) ∧
    (∀ (S : Type) (f : Nat → S → S) (r : Nat) (s : S),
      Shim.rust_helper_refcount_inc f r s = f r s) ∧
    (∀ (S : Type) (f : Nat → S → S × Bool) (r : Nat) (s : S),
      Shim.rust_helper_refcount_dec_and_test f r s = f r s) ∧
    (∀ (S : Type) (f : Nat → S → S × Int) (t : Nat) (s : S),
      Shim.rust_helper_signal_pending f t s = f t s) ∧
    (∀ (S : Type) (f : Nat → S → S) (lock : Nat) (s : S),
      Shim.rust_helper_spin_lock f lock s = f lock s) ∧
    (∀ (S : Type) (f : Nat → S → S) (lock : Nat) (s : S),
      Shim.rust_helper_spin_unlock f lock s = f lock s) ∧
    (∀ (S : Type) (f : Nat → S → S) (t : Nat) (s : S),
      Shim.rust_helper_get_task_struct f t s = f t s) ∧
    (∀ (S : Type) (f : Nat → S → S) (t : Nat) (s : S),
      Shim.rust_helper_put_task_struct f t s = f t s) ∧
    (∀ (S : Type) (f : Nat → S → S) (wq_entry : Nat) (s : S),
      Shim.rust_helper_init_wait f wq_entry s = f wq_entry s) ∧
    (∀ (S : Type) (f : Nat → Nat → S → S) (pdev data : Nat) (s : S),
      Part000.rust_helper_pci_set_drvdata f pdev data s = f pdev data s) ∧
    (∀ (S : Type) (f : Nat → S → S × Nat) (pdev : Nat) (s : S),
      Part000.rust_helper_pci_get_drvdata f pdev s = f pdev s) ∧
    (∀ (S : Type) (f : Nat → Int → S → S × Nat) (pdev : Nat) (bar : Int) (s : S),
      Part000.rust_helper_pci_resource_start f pdev bar s = f pdev bar s) ∧
    (∀ (f : Int → Int) (n : Int),
      Shim.rust_helper_REFCOUNT_INIT f n = f n) ∧
    (∀ (S : Type) (f : S → Nat) (s : S),
      Shim.rust_helper_get_current f s = (s, f s))
    := by
  repeat' apply And.intro
  all_goals intros
  all_goals rfl

namespace SpinTrace

/-! ### Call-level view of the spinlock initializer

To compare `rust_helper___spin_lock_init` against the forwarding contract of
C1 we embed it at the level of the primitive calls its body performs,
recording every argument each callee receives. -/

/-- A call of one of the two kernel initialisation primitives the wrapper's
two branches invoke, with the arguments the callee receives. -/
inductive SpinPrim where
  | raw_spin_lock_init (raw : Nat) (name : String) (key : Nat)
      (wait_type : Nat)
  | spin_lock_init (lock : Nat)
deriving DecidableEq

/-- Modelled from the spec: `spinlock_check` only converts the lock to its
raw inner lock; identity on this pointer model. -/
def spinlock_check (lock : Nat) : Nat := lock

/-- Modelled from the spec: the lockdep wait-type constant of the debug
branch. -/
def LD_WAIT_CONFIG : Nat := 0

/-- Call-level translation of `rust_helper___spin_lock_init(lock, name,
key)`: the list of primitive calls the body performs in each compile-time
configuration. -/
def spin_lock_init_calls (debug_spinlock : Bool) (lock : Nat)
    (name : String) (key : Nat) : List SpinPrim :=
  if debug_spinlock then
    [SpinPrim.raw_spin_lock_init (spinlock_check lock) name key
      LD_WAIT_CONFIG]
  else
    [SpinPrim.spin_lock_init lock]

/-- The string arguments a primitive call receives. -/
def primStrArgs : SpinPrim → List String
  | SpinPrim.raw_spin_lock_init _ n _ _ => [n]
  | SpinPrim.spin_lock_init _ => []

/-- Follows the spec's words ("arguments are forwarded unchanged"): the
`name` argument of the wrapper is forwarded when some primitive call the
wrapper performs receives it. -/
def forwardsName (calls : List SpinPrim) (name : String) : Bool :=
  calls.any fun c => (primStrArgs c).contains name

end SpinTrace

/-- C1 as stated is false at a concrete input: called in the plain (non
lock-debug) configuration with the name "lockA", the wrapper
`rust_helper___spin_lock_init` performs only the call
`spin_lock_init(lock)`, and the name argument "lockA" (like the key
argument) reaches no primitive call, so its arguments are not forwarded
unchanged to the wrapped primitive; in the debug configuration the same
input is forwarded. -/
theorem c1_spin_lock_init_drops_name :
    SpinTrace.spin_lock_init_calls false 3 "lockA" 5 =
      [SpinTrace.SpinPrim.spin_lock_init 3] ∧
    SpinTrace.forwardsName
      (SpinTrace.spin_lock_init_calls false 3 "lockA" 5) "lockA" = false ∧
    SpinTrace.forwardsName
      (SpinTrace.spin_lock_init_calls true 3 "lockA" 5) "lockA" = true := by
  exact ⟨rfl, by decide, by decide⟩

/-- C10: the two definitions of the PCI driver-data wrappers — one in
`helpers_combined.c`, one in `part_000` — are behaviourally identical: for
every primitive behaviour, every PCI device handle, every data pointer and
every starting state, the two set-driver-data wrappers perform the same
effect and the two get-driver-data wrappers return the same value. -/
theorem c10_pci_drvdata_duplicates_agree :
    (∀ (S : Type) (f : Nat → Nat → S → S) (pdev data : Nat) (s : S),
      Shim.rust_helper_pci_set_drvdata f pdev data s =
        Part000.rust_helper_pci_set_drvdata f pdev data s) ∧
    (∀ (S : Type) (f : Nat → S → S × Nat) (pdev : Nat) (s : S),
      Shim.rust_helper_pci_get_drvdata f pdev s =
        Part000.rust_helper_pci_get_drvdata f pdev s) := by
  exact ⟨fun _ _ _ _ _ => rfl, fun _ _ _ _ => rfl⟩
